import Mathlib

/-!
Shallow embedding of the IDT 8T49N24x clock-plan calculator of
`src/xfmc/idt.c` and theorems checking the specification claims against it.

Modelling conventions:
* C machine integers become `Nat` with explicit `% 2^32` (resp. `% 2^64`)
  wherever the C computation can wrap (`int`/`u32` products, `u64` products,
  the `(int)` truncation of a `u64`); the one signed read-out,
  `error_tmp = (int)temp`, is modelled by reinterpreting the low 32 bits as a
  signed integer (`Int`).
* C division by zero is undefined behaviour; `Nat` division by zero yields 0.
  The places where this matters are noted next to the definitions.
* Stack variables that the C code can read without ever initialising them
  (`ns1`, `m1_default`, `p_default`) are modelled with `Option`: `none` marks
  the undefined-value outcome.
-/

namespace Idt

/-- Device limit constants of idt.c (lines 28-38). -/
def XTAL_FREQ : Nat := 40000000

def FVCO_MAX : Nat := 4000000000

def FVCO_MIN : Nat := 3000000000

def FOUT_MAX : Nat := 400000000

def FOUT_MIN : Nat := 8000

def FIN_MAX : Nat := 875000000

def FIN_MIN : Nat := 8000

def FPD_MAX : Nat := 128000

def P_MAX : Nat := 4194304

def M_MAX : Nat := 16777216

/-- Wrap modulus of 32-bit machine integers. -/
def U32 : Nat := 4294967296

/-- Wrap modulus of 64-bit machine integers. -/
def U64 : Nat := 18446744073709551616

/-- Source: `int ns1_opts[4] = {1,4,5,6}` in `idt_get_int_divtable`. -/
def ns1_opts : List Nat := [1, 4, 5, 6]

/-- Lines 124-125: `outdiv_min = ceil(FVCO_MIN / freq_out)`.  For
`freq_out = 0` the C code divides by zero (undefined behaviour); the `Nat`
model then yields `0 + 1 = 1`. -/
def idt_outdiv_min (freq_out : Nat) : Nat :=
  FVCO_MIN / freq_out + (if FVCO_MIN % freq_out == 0 then 0 else 1)

/-- Line 127: `outdiv_max = floor(FVCO_MAX / freq_out)`. -/
def idt_outdiv_max (freq_out : Nat) : Nat :=
  FVCO_MAX / freq_out

/-- Lines 108-181, `idt_get_int_divtable`: enumerate the accepted output
dividers, in source order.  `vco_tmp` is a `u32` assigned from an `int`
product, hence the `% U32`.  The result list corresponds to the `divtbl`
array together with the returned count `cnt` (the C code never checks the
20-entry capacity of the caller's array; the list model ignores that). -/
def idt_get_int_divtable (bypass : Bool) (freq_out : Nat) : List Nat :=
  let index : Nat := if bypass then 0 else 1
  let opts := ns1_opts.drop index
  let outdiv_min := idt_outdiv_min freq_out
  let outdiv_max := idt_outdiv_max freq_out
  let hit := opts.any fun a => a == outdiv_min || a == outdiv_max
  let ns2_min : Nat :=
    if hit then 0
    else outdiv_min / 6 / 2 + (if (outdiv_min / 6) % 2 == 0 then 0 else 1)
  let ns2_max : Nat :=
    if hit then 0
    else max 1 (outdiv_max / ns1_opts.getD index 0 / 2)
  (List.range' ns2_min (ns2_max + 1 - ns2_min)).flatMap fun ns2_tmp =>
    opts.filterMap fun a =>
      let outdiv_tmp := if ns2_tmp == 0 then a else a * ns2_tmp * 2
      let vco_tmp := freq_out * outdiv_tmp % U32
      if vco_tmp ≤ FVCO_MAX ∧ FVCO_MIN ≤ vco_tmp then some outdiv_tmp else none

/-- Lines 214-219: the settings calculator keeps the largest accepted divider,
starting from `max_div = 0`. -/
def idt_max_div (freq_out : Nat) : Nat :=
  (idt_get_int_divtable false freq_out).foldl max 0

/-- Line 220: `fvco = freq_out * max_div`, an `int` product stored in a `u32`. -/
def idt_fvco (freq_out : Nat) : Nat :=
  freq_out * idt_max_div freq_out % U32

/-- Lines 237-259: the sequential NS1 register-selection chain.  `ns1` is a
local `int` that the chain may leave uninitialised; `none` models that. -/
def idt_ns1_sel (max_div : Nat) : Option Nat :=
  let r1 : Option Nat := if max_div == 4 || max_div % 8 == 0 then some 2 else none
  let r2 : Option Nat := if max_div == 5 || max_div % 10 == 0 then some 0 else r1
  if max_div == 6 || max_div % 12 == 0 then some 1 else r2

/-- Lines 265-286: decode the NS1 register value back to its divide value. -/
def idt_ns1_val (ns1 : Nat) : Nat :=
  match ns1 with
  | 0 => 5
  | 1 => 6
  | 2 => 4
  | 3 => 1
  | _ => 6

/-- Lines 294-317: split the selected total divider into the output-divider
integer and fraction register fields, exactly as the C code writes it with
`& 1` tests and shifts. -/
def idt_outdiv_split (max_div : Nat) : Nat × Nat :=
  let frac_numerator : Nat := if (max_div &&& 1) != 0 then 268435456 >>> 1 else 0
  if (max_div &&& 1) == 0 then (max_div >>> 1, 0)
  else ((max_div + 1) >>> 1, frac_numerator)

/-- Lines 323-327: upper feedback divider integer part; the divisor is the
fixed crystal frequency, `2 * XTAL_FREQ = 80000000`, not `freq_in`. -/
def idt_dsm_int_of (fvco : Nat) : Nat :=
  fvco / (2 * XTAL_FREQ)

/-- Lines 329-334: `dsm_frac = (UpperFBDiv_rem * 2048 + (78125 >> 1)) / 78125`,
again relative to the fixed crystal frequency. -/
def idt_dsm_frac_of (fvco : Nat) : Nat :=
  (fvco % (2 * XTAL_FREQ) * 2048 + (78125 >>> 1)) / 78125

/-- Line 343: `p_min = (int)freq_in / FPD_MAX` (integer division, a floor). -/
def idt_p_min (freq_in : Nat) : Nat :=
  freq_in / FPD_MAX

/-- Lines 356-358: `m1 = (fvco*i + (freq_in >> 1)) / freq_in` in `u64`
arithmetic.  For `freq_in = 0` the C code divides by zero; the model gives 0. -/
def idt_m1 (fvco freq_in i : Nat) : Nat :=
  (fvco * i + freq_in / 2) / freq_in

/-- Lines 361-364: the per-candidate error computation
`temp  = ((u64)fvco*i - (u64)m1*freq_in) * 1000000`  (u64, may wrap),
`temp1 = (u64)i*freq_in/1000`,
`error_tmp = (int)(temp / temp1)` (low 32 bits reinterpreted as signed). -/
def idt_error_tmp (fvco freq_in i : Nat) : Int :=
  let m1 := idt_m1 fvco freq_in i
  let diff : Nat := (((fvco * i : Int) - (m1 * freq_in : Int)) % (U64 : Int)).toNat
  let temp : Nat := diff * 1000000 % U64
  let temp1 : Nat := i * freq_in / 1000
  let q : Nat := temp / temp1 % U32
  if q < 2147483648 then (q : Int) else (q : Int) - (U32 : Int)

/-- Absolute value of `error_tmp`, as used by `abs(error_tmp)` in the loop. -/
def idt_error_abs (fvco freq_in i : Nat) : Nat :=
  (idt_error_tmp fvco freq_in i).natAbs

/-- Lines 353-379: the feedback-search loop body.  The second argument is the
remaining number of loop iterations (`fuel`); the accumulator carries the best
`(p_default, m1_default, error)` stored so far, `none` before any store. -/
def idt_fb_loop (fvco freq_in : Nat) :
    Nat → Nat → Option (Nat × Nat × Nat) → Option (Nat × Nat × Nat)
  | _, 0, best => best
  | i, fuel + 1, best =>
    let m1 := idt_m1 fvco freq_in i
    if m1 < M_MAX then
      let et := idt_error_tmp fvco freq_in i
      let error := match best with
        | none => 99999999
        | some (_, _, e) => e
      if et.natAbs < error ∨ et = 0 then
        if et = 0 then some (i, m1, 0)
        else idt_fb_loop fvco freq_in (i + 1) fuel (some (i, m1, et.natAbs))
      else idt_fb_loop fvco freq_in (i + 1) fuel best
    else best

/-- Lines 349-379: scan `i` from `p_min` up to `P_MAX` inclusive.  `none`
means the loop ended without ever storing, in which case the C code would go
on to read the uninitialised `m1_default` and `p_default`. -/
def idt_feedback (fvco freq_in : Nat) : Option (Nat × Nat × Nat) :=
  idt_fb_loop fvco freq_in (idt_p_min freq_in) (P_MAX + 1 - idt_p_min freq_in) none

/-- Lines 382-385: loss-of-signal divider with lower clamp at 6. -/
def idt_los (fvco freq_in : Nat) : Nat :=
  let los := fvco / 8 / freq_in + 3
  if los < 6 then 6 else los

/-- Mirror of `struct idt_settings` (lines 45-56). -/
structure IdtSettings where
  dsm_frac : Nat
  m1_x : Nat
  pre_x : Nat
  los_x : Nat
  n_qx : Nat
  nfrac_qx : Nat
  ns2_qx : Nat
  dsm_int : Nat
  ns1_qx : Nat
deriving DecidableEq

/-- Lines 184-401, `idt_cal_settings`.  Field stores repeat the C truncation
to the declared field widths (`u32`, `u16`, `u8`).  The function yields `none`
exactly when the C code would read an uninitialised local (`ns1` never
assigned, or the feedback loop never storing a candidate). -/
def idt_cal_settings (freq_in freq_out : Nat) : Option IdtSettings :=
  let max_div := idt_max_div freq_out
  let fvco := idt_fvco freq_out
  match idt_ns1_sel max_div with
  | none => none
  | some ns1 =>
    let ns2 := max_div / idt_ns1_val ns1 / 2
    let split := idt_outdiv_split max_div
    match idt_feedback fvco freq_in with
    | none => none
    | some (p_default, m1_default, _) =>
      some {
        dsm_frac := idt_dsm_frac_of fvco % U32
        m1_x := m1_default % U32
        pre_x := p_default % U32
        los_x := idt_los fvco freq_in % U32
        n_qx := split.1 % U32
        nfrac_qx := split.2 % U32
        ns2_qx := ns2 % 65536
        dsm_int := idt_dsm_int_of fvco % 65536
        ns1_qx := ns1 % 256 }

/-!
Register-write model.  A write is an `(address, value)` pair; the transport
outcome of each attempted write is supplied by an oracle
`wf : Nat → Nat → Int` (the status `regmap_write` would return for that
address and value), and register read-back for `idt_modify_reg` by an oracle
`rf : Nat → Nat`.  Every helper returns the list of writes it issues, in
order, together with its C return value — which, as in the source, is only
the status of the *last* write it issued.
-/

/-- Lines 95-106, `idt_write_reg`: one write, value truncated to `u8`. -/
def idt_write_reg_w (wf : Nat → Nat → Int) (addr val : Nat) :
    List (Nat × Nat) × Int :=
  ([(addr, val % 256)], wf addr (val % 256))

/-- Lines 403-427, `idt_pre_div`: three writes, `ret` kept only from the last. -/
def idt_pre_div_w (wf : Nat → Nat → Int) (val input : Nat) :
    List (Nat × Nat) × Int :=
  let addr : Nat := if input == 1 then 0x000e else 0x000b
  let w1 := idt_write_reg_w wf addr (val >>> 16 &&& 0x1f)
  let w2 := idt_write_reg_w wf (addr + 1) (val >>> 8)
  let w3 := idt_write_reg_w wf (addr + 2) (val &&& 0xff)
  (w1.1 ++ w2.1 ++ w3.1, w3.2)

/-- Lines 429-453, `idt_m1_feedback`. -/
def idt_m1_feedback_w (wf : Nat → Nat → Int) (val input : Nat) :
    List (Nat × Nat) × Int :=
  let addr : Nat := if input == 1 then 0x0011 else 0x0014
  let w1 := idt_write_reg_w wf addr (val >>> 16)
  let w2 := idt_write_reg_w wf (addr + 1) (val >>> 8)
  let w3 := idt_write_reg_w wf (addr + 2) (val &&& 0xff)
  (w1.1 ++ w2.1 ++ w3.1, w3.2)

/-- Lines 454-468, `idt_dsm_int`: the high byte is masked to a single bit. -/
def idt_dsm_int_w (wf : Nat → Nat → Int) (val : Nat) :
    List (Nat × Nat) × Int :=
  let w1 := idt_write_reg_w wf 0x0025 (val >>> 8 &&& 0x01)
  let w2 := idt_write_reg_w wf 0x0026 (val &&& 0xff)
  (w1.1 ++ w2.1, w2.2)

/-- Lines 470-488, `idt_dsm_frac`. -/
def idt_dsm_frac_w (wf : Nat → Nat → Int) (val : Nat) :
    List (Nat × Nat) × Int :=
  let w1 := idt_write_reg_w wf 0x0028 (val >>> 16 &&& 0x1f)
  let w2 := idt_write_reg_w wf 0x0029 (val >>> 8)
  let w3 := idt_write_reg_w wf 0x002a (val &&& 0xff)
  (w1.1 ++ w2.1 ++ w3.1, w3.2)

/-- Lines 490-520, `idt_outdiv_int`; only outputs 0-3 appear in the source
switch (other values would leave `addr` uninitialised; the callers only pass
2 and 3). -/
def idt_outdiv_int_w (wf : Nat → Nat → Int) (val output : Nat) :
    List (Nat × Nat) × Int :=
  let addr : Nat :=
    match output with
    | 0 => 0x003f
    | 1 => 0x0042
    | 2 => 0x0045
    | _ => 0x0048
  let w1 := idt_write_reg_w wf addr (val >>> 16 &&& 0x03)
  let w2 := idt_write_reg_w wf (addr + 1) (val >>> 8)
  let w3 := idt_write_reg_w wf (addr + 2) (val &&& 0xff)
  (w1.1 ++ w2.1 ++ w3.1, w3.2)

/-- Lines 521-555, `idt_outdiv_frac`. -/
def idt_outdiv_frac_w (wf : Nat → Nat → Int) (val output : Nat) :
    List (Nat × Nat) × Int :=
  let addr : Nat :=
    match output with
    | 0 => 0x0000
    | 1 => 0x0057
    | 2 => 0x005b
    | _ => 0x005f
  let w1 := idt_write_reg_w wf addr (val >>> 24 &&& 0x0f)
  let w2 := idt_write_reg_w wf (addr + 1) (val >>> 16)
  let w3 := idt_write_reg_w wf (addr + 2) (val >>> 8)
  let w4 := idt_write_reg_w wf (addr + 3) (val &&& 0xff)
  (w1.1 ++ w2.1 ++ w3.1 ++ w4.1, w4.2)

/-- Lines 556-573, `idt_modify_reg`: read-modify-write of one register; the
read value comes from the oracle `rf`. -/
def idt_modify_reg_w (wf : Nat → Nat → Int) (rf : Nat → Nat)
    (addr val mask : Nat) : List (Nat × Nat) × Int :=
  let data := rf addr % 256 &&& (255 ^^^ mask) ||| val &&& mask
  idt_write_reg_w wf addr data

/-- Lines 575-606, `idt_set_mode`: two read-modify-writes. -/
def idt_set_mode_w (wf : Nat → Nat → Int) (rf : Nat → Nat)
    (synthesizer : Bool) : List (Nat × Nat) × Int :=
  let val1 : Nat := if synthesizer then 0x01 ||| 1 <<< 4 ||| 1 <<< 5 else 1 <<< 5
  let r1 := idt_modify_reg_w wf rf 0x000a val1 0x33
  let val2 : Nat := if synthesizer then 1 <<< 3 else 0
  let r2 := idt_modify_reg_w wf rf 0x0069 val2 (1 <<< 3)
  (r1.1 ++ r2.1, r2.2)

/-- Lines 607-631, `idt_in_monitor_ctrl`: three writes of the LOS divider. -/
def idt_in_monitor_w (wf : Nat → Nat → Int) (val input : Nat) :
    List (Nat × Nat) × Int :=
  let addr : Nat := if input == 1 then 0x0074 else 0x0071
  let w1 := idt_write_reg_w wf addr (val >>> 16 &&& 0x1)
  let w2 := idt_write_reg_w wf (addr + 1) (val >>> 8)
  let w3 := idt_write_reg_w wf (addr + 2) (val &&& 0xff)
  (w1.1 ++ w2.1 ++ w3.1, w3.2)

/-- Lines 633-661, `idt_ref_input`. -/
def idt_ref_input_w (wf : Nat → Nat → Int) (rf : Nat → Nat)
    (input : Nat) (enable : Bool) : List (Nat × Nat) × Int :=
  let shift : Nat := if input == 1 then 5 else 4
  let val : Nat := if enable then 0 else 1 <<< shift
  idt_modify_reg_w wf rf 0x000a val (1 <<< shift)

/-- Lines 668-672: the input-frequency guard of `set_clock`, exactly as
written in the source — with `&&`, so it demands `freq_in < FIN_MIN` *and*
`freq_in > FIN_MAX` at once. -/
def set_clock_fin_reject (freq_in : Nat) : Bool :=
  decide (freq_in < FIN_MIN) && decide (FIN_MAX < freq_in)

/-- Lines 674-678: the output-frequency guard of `set_clock`, again with
`&&` as in the source. -/
def set_clock_fout_reject (freq_out : Nat) : Bool :=
  decide (freq_out < FOUT_MIN) && decide (FOUT_MAX < freq_out)

/-- Fixed record standing in for the uninitialised `struct idt_settings`
locals that `set_clock` would program if `idt_cal_settings` hit an
uninitialised-read path. -/
def undef_settings : IdtSettings :=
  ⟨0, 0, 0, 0, 0, 0, 0, 0, 0⟩

/-- Lines 683-732: the write program of `set_clock` after the guards, in
source order: calibration disable, reference-input disables, synthesizer
mode, the field programming, calibration enable.  The return value is the
status of the final write, as in the source (`ret` is overwritten by every
call). -/
def set_clock_prog (wf : Nat → Nat → Int) (rf : Nat → Nat)
    (s : IdtSettings) : List (Nat × Nat) × Int :=
  let w0 := idt_write_reg_w wf 0x0070 0x05
  let a1 := idt_ref_input_w wf rf 0 false
  let a2 := idt_ref_input_w wf rf 1 false
  let a3 := idt_set_mode_w wf rf true
  let a4 := idt_pre_div_w wf s.pre_x 0
  let a5 := idt_pre_div_w wf s.pre_x 1
  let a6 := idt_m1_feedback_w wf s.m1_x 0
  let a7 := idt_m1_feedback_w wf s.m1_x 1
  let a8 := idt_dsm_int_w wf s.dsm_int
  let a9 := idt_dsm_frac_w wf s.dsm_frac
  let a10 := idt_outdiv_int_w wf s.n_qx 2
  let a11 := idt_outdiv_int_w wf s.n_qx 3
  let a12 := idt_outdiv_frac_w wf s.nfrac_qx 2
  let a13 := idt_outdiv_frac_w wf s.nfrac_qx 3
  let a14 := idt_in_monitor_w wf s.los_x 0
  let a15 := idt_in_monitor_w wf s.los_x 1
  let wF := idt_write_reg_w wf 0x0070 0x00
  (w0.1 ++ a1.1 ++ a2.1 ++ a3.1 ++ a4.1 ++ a5.1 ++ a6.1 ++ a7.1 ++ a8.1 ++
      a9.1 ++ a10.1 ++ a11.1 ++ a12.1 ++ a13.1 ++ a14.1 ++ a15.1 ++ wF.1,
    wF.2)

/-- Lines 663-733, `set_clock`: guards, settings calculation, then the write
program.  A rejected frequency returns 1 with no writes. -/
def set_clock (wf : Nat → Nat → Int) (rf : Nat → Nat)
    (freq_in freq_out : Nat) : List (Nat × Nat) × Int :=
  if set_clock_fin_reject freq_in then ([], 1)
  else if set_clock_fout_reject freq_out then ([], 1)
  else set_clock_prog wf rf ((idt_cal_settings freq_in freq_out).getD undef_settings)

/-!
Claim theorems.
-/

/-- C1: the claim says a `target_hz` below 8000 or above 400000000 (including
0) is rejected with an out-of-range failure before any division.  In the
source the rejection condition is written with `&&` — it demands
`freq_out < 8000` and `freq_out > 400000000` simultaneously — so it never
holds: no output frequency is ever rejected, and `freq_out = 0` flows into
`idt_get_int_divtable`, which divides by it. -/
theorem claim_C1 (freq_out : Nat) : set_clock_fout_reject freq_out = false := by
  simp only [set_clock_fout_reject, FOUT_MIN, FOUT_MAX, Bool.and_eq_false_iff,
    decide_eq_false_iff_not, not_lt]
  omega

/-- C7: for every selected total divider, the output-divider split stores
fraction 0 and integer `total/2` when the total is even, and the half-scale
constant `2^27` with integer `ceil(total/2)` when it is odd. -/
theorem claim_C7 (max_div : Nat) :
    idt_outdiv_split max_div =
      if max_div % 2 = 0 then (max_div / 2, 0)
      else ((max_div + 1) / 2, 134217728) := by
  rcases Nat.mod_two_eq_zero_or_one max_div with h | h <;>
    simp [idt_outdiv_split, Nat.and_one_is_mod, h, Nat.shiftRight_succ,
      Nat.shiftRight_zero]

/-- C4: the claim says an empty accepted divider set makes the calculator
fail with a no-valid-divider error before any feedback search.  At
`freq_out = 2123000000` (which the broken range guard lets through) the
enumeration accepts nothing, yet `idt_cal_settings` proceeds — with
`max_div = 0`, `fvco = 0` — and produces a settings record. -/
theorem claim_C4 :
    idt_get_int_divtable false 2123000000 = [] ∧
      (idt_cal_settings 40000000 2123000000).isSome = true :=
  ⟨by decide, by decide⟩

/-- C2 counterexample: with `reference_hz = 40 MHz` and `target_hz = 175 MHz`
the calculator succeeds with pre-divider 312, strictly below
`ceil(reference_hz / FPD_MAX) = 313`: the scan starts at the floor of
`reference_hz / FPD_MAX`, not at its ceiling as claimed. -/
theorem claim_C2_counterexample :
    (idt_cal_settings 40000000 175000000).map (fun s => s.pre_x) = some 312 ∧
      312 < (40000000 + FPD_MAX - 1) / FPD_MAX :=
  ⟨by decide, by decide⟩

/-- C3 counterexample: with `reference_hz = 80 MHz` and `target_hz = 175 MHz`
(so the selected VCO is 3.5 GHz) the stored `dsm_int` is 43, which is
`vco / (2 * 40 MHz)`; the claimed `vco / (2 * reference_hz)` is 21.  The DSM
split is computed from the fixed crystal frequency, not from the reference
input. -/
theorem claim_C3_counterexample :
    (idt_cal_settings 80000000 175000000).map (fun s => s.dsm_int) = some 43 ∧
      idt_fvco 175000000 / (2 * 80000000) = 21 ∧ (43 : Nat) ≠ 21 :=
  ⟨by decide, by decide, by decide⟩

/-- C5 counterexample: at `vco = 3999900000`, `reference = 128000`, the scan
starts at `p = 1`, where `m = 31249 < 2^24` and the loop's error value is
218750000, while the claimed parts-per-million expression
`|vco*p - m*ref| * 10^6 / (p*ref)` yields 218750: the code divides by
`p*ref/1000`, i.e. tracks parts-per-billion, a value 1000 times larger. -/
theorem claim_C5_counterexample :
    idt_p_min 128000 = 1 ∧
      idt_m1 3999900000 128000 1 = 31249 ∧
      idt_m1 3999900000 128000 1 < M_MAX ∧
      idt_error_abs 3999900000 128000 1 = 218750000 ∧
      (3999900000 * 1 - 31249 * 128000) * 1000000 / (1 * 128000) = 218750 ∧
      (218750000 : Nat) ≠ 218750 :=
  ⟨by decide, by decide, by decide, by decide, by decide, by decide⟩

/-- Invariant of the feedback loop: any returned triple has its divider
between the start index and `P_MAX` and its multiplier below `M_MAX`,
provided every triple already in the accumulator does. -/
theorem idt_fb_loop_bounds (fvco freq_in base : Nat) :
    ∀ (fuel i : Nat) (best : Option (Nat × Nat × Nat)) (p m e : Nat),
      base ≤ i → i + fuel ≤ P_MAX + 1 →
      (∀ p0 m0 e0, best = some (p0, m0, e0) →
        base ≤ p0 ∧ p0 ≤ P_MAX ∧ m0 < M_MAX) →
      idt_fb_loop fvco freq_in i fuel best = some (p, m, e) →
      base ≤ p ∧ p ≤ P_MAX ∧ m < M_MAX := by
  intro fuel
  induction fuel with
  | zero =>
    intro i best p m e _ _ hinv h
    exact hinv p m e h
  | succ fuel ih =>
    intro i best p m e hbase hfuel hinv h
    simp only [idt_fb_loop] at h
    split at h
    · next hm1 =>
      split at h
      · split at h
        · simp only [Option.some.injEq, Prod.mk.injEq] at h
          obtain ⟨hp, hm, _⟩ := h
          subst hp; subst hm
          exact ⟨hbase, by omega, hm1⟩
        · refine ih (i + 1) _ p m e (by omega) (by omega) ?_ h
          intro p0 m0 e0 heq
          simp only [Option.some.injEq, Prod.mk.injEq] at heq
          obtain ⟨hp, hm, _⟩ := heq
          subst hp; subst hm
          exact ⟨hbase, by omega, hm1⟩
      · exact ih (i + 1) best p m e (by omega) (by omega) hinv h
    · exact hinv p m e h

/-- C2 (amended): every successful feedback search returns a pre-divider
with `p_min ≤ pre_divider ≤ P_MAX = 2^22` and a multiplier below
`M_MAX = 2^24`, where `p_min = floor(reference_hz / FPD_MAX)` — the scan
starts at the floor of `reference_hz / 128000`, not at its ceiling. -/
theorem claim_C2_amended (fvco freq_in p m e : Nat)
    (h : idt_feedback fvco freq_in = some (p, m, e)) :
    idt_p_min freq_in ≤ p ∧ p ≤ P_MAX ∧ m < M_MAX := by
  by_cases hp : idt_p_min freq_in ≤ P_MAX + 1
  · refine idt_fb_loop_bounds fvco freq_in (idt_p_min freq_in)
      (P_MAX + 1 - idt_p_min freq_in) (idt_p_min freq_in) none p m e le_rfl
      (by omega) ?_ h
    intro p0 m0 e0 heq
    simp at heq
  · exfalso
    have h0 : P_MAX + 1 - idt_p_min freq_in = 0 := by omega
    simp only [idt_feedback, h0, idt_fb_loop] at h
    exact Option.noConfusion h

/-- Witness for the amended C2: at `vco = 3.5 GHz`, `reference = 40 MHz` the
search succeeds with `(312, 27300, 0)` and the bounds hold there. -/
theorem claim_C2_amended_witness :
    idt_p_min 40000000 ≤ 312 ∧ 312 ≤ P_MAX ∧ 27300 < M_MAX :=
  claim_C2_amended 3500000000 40000000 312 27300 0 (by decide)

/-- Source form of the `dsm_frac` computation versus its rounding reading:
`(rem * 2048 + (78125 >> 1)) / 78125` is exactly round-to-nearest of
`rem * 2^21 / (2 * XTAL_FREQ)`, written as `(rem * 2^21 + XTAL) / (2*XTAL)`
(the half point is never hit, so half-up and half-down agree). -/
theorem idt_dsm_frac_round (r : Nat) :
    (r * 2048 + 39062) / 78125 = (r * 2097152 + 40000000) / 80000000 := by
  omega

/-- C3 (amended): the DSM split divides the VCO frequency by twice the fixed
40 MHz crystal frequency, not by `reference_hz`: every produced settings
record has `dsm_int = vco / (2*XTAL_FREQ)` and
`dsm_frac = round(rem * 2^21 / XTAL_FREQ / 2)` for `rem = vco % (2*XTAL)`;
and because `vco` is a `u32`, `dsm_int` never exceeds its 9-bit field (it is
below 512), so the overflow the claim worries about cannot occur. -/
theorem claim_C3_amended (freq_in freq_out : Nat) (s : IdtSettings)
    (h : idt_cal_settings freq_in freq_out = some s) :
    s.dsm_int = idt_fvco freq_out / (2 * XTAL_FREQ) ∧
      s.dsm_frac =
        (idt_fvco freq_out % (2 * XTAL_FREQ) * 2097152 + XTAL_FREQ) /
          (2 * XTAL_FREQ) ∧
      s.dsm_int < 512 := by
  have hfv : idt_fvco freq_out < 4294967296 := by
    have := Nat.mod_lt (freq_out * idt_max_div freq_out)
      (show 0 < U32 by decide)
    simpa [idt_fvco, U32] using this
  have hint : idt_dsm_int_of (idt_fvco freq_out) < 512 := by
    simp only [idt_dsm_int_of, XTAL_FREQ]
    omega
  have hfrac : idt_dsm_frac_of (idt_fvco freq_out) < 4294967296 := by
    have hr : idt_fvco freq_out % (2 * XTAL_FREQ) < 2 * XTAL_FREQ :=
      Nat.mod_lt _ (by simp [XTAL_FREQ])
    simp only [idt_dsm_frac_of, XTAL_FREQ] at hr ⊢
    omega
  simp only [idt_cal_settings] at h
  split at h
  · exact Option.noConfusion h
  · split at h
    · exact Option.noConfusion h
    · obtain rfl := (Option.some.inj h).symm
      refine ⟨?_, ?_, ?_⟩
      · show idt_dsm_int_of (idt_fvco freq_out) % 65536 = _
        rw [Nat.mod_eq_of_lt (by omega)]
        rfl
      · show idt_dsm_frac_of (idt_fvco freq_out) % U32 = _
        rw [show U32 = 4294967296 from rfl, Nat.mod_eq_of_lt hfrac]
        simp only [idt_dsm_frac_of, XTAL_FREQ]
        exact idt_dsm_frac_round _
      · show idt_dsm_int_of (idt_fvco freq_out) % 65536 < 512
        rw [Nat.mod_eq_of_lt (by omega)]
        exact hint

/-- Witness for the amended C3 at `reference = 40 MHz`, `target = 175 MHz`
(VCO 3.5 GHz, `dsm_int = 43`, `dsm_frac = 1572864`). -/
theorem claim_C3_amended_witness :
    (⟨1572864, 27300, 312, 13, 10, 0, 2, 43, 0⟩ : IdtSettings).dsm_int =
        idt_fvco 175000000 / (2 * XTAL_FREQ) ∧
      (⟨1572864, 27300, 312, 13, 10, 0, 2, 43, 0⟩ : IdtSettings).dsm_frac =
        (idt_fvco 175000000 % (2 * XTAL_FREQ) * 2097152 + XTAL_FREQ) /
          (2 * XTAL_FREQ) ∧
      (⟨1572864, 27300, 312, 13, 10, 0, 2, 43, 0⟩ : IdtSettings).dsm_int < 512 :=
  claim_C3_amended 40000000 175000000 _ (by decide)

/-- C5 (amended): for every examined divider `p` with `m < M_MAX`, in the
non-wrapping, non-truncating case (`m * ref ≤ vco * p`, and the quotient
below `2^31`), the loop's error value equals
`(vco*p - m*ref) * 1000000 / (p * ref / 1000)`: the divisor is
`p * ref / 1000`, not the claimed `p * ref`, so the tracked error is on a
parts-per-billion scale, one thousand times the claimed parts-per-million
value. -/
theorem claim_C5_amended (fvco freq_in i : Nat)
    (h0 : 0 < freq_in) (h1 : freq_in < U32)
    (hm : idt_m1 fvco freq_in i < M_MAX)
    (hw : idt_m1 fvco freq_in i * freq_in ≤ fvco * i)
    (ht : (fvco * i - idt_m1 fvco freq_in i * freq_in) * 1000000 /
        (i * freq_in / 1000) < 2147483648) :
    idt_error_abs fvco freq_in i =
      (fvco * i - idt_m1 fvco freq_in i * freq_in) * 1000000 /
        (i * freq_in / 1000) := by
  have key : fvco * i - idt_m1 fvco freq_in i * freq_in < freq_in := by
    have ha := Nat.div_add_mod (fvco * i + freq_in / 2) freq_in
    have hb := Nat.mod_lt (fvco * i + freq_in / 2) h0
    rw [idt_m1]
    generalize hA : fvco * i = A at *
    generalize hD : (A + freq_in / 2) / freq_in = D at *
    generalize hM : (A + freq_in / 2) % freq_in = M at *
    rw [Nat.mul_comm freq_in D] at ha
    generalize hP : D * freq_in = P at *
    omega
  simp only [U32] at h1
  have hcast : ((fvco * i : Int) - (idt_m1 fvco freq_in i * freq_in : Int)) %
      (U64 : Int) = ((fvco * i - idt_m1 fvco freq_in i * freq_in : Nat) : Int) := by
    simp only [U64]
    omega
  simp only [idt_error_abs, idt_error_tmp]
  rw [hcast]
  simp only [Int.toNat_natCast, U64, U32]
  rw [Nat.mod_eq_of_lt (a := (fvco * i - idt_m1 fvco freq_in i * freq_in) * 1000000)
    (by omega)]
  rw [Nat.mod_eq_of_lt (by omega : (fvco * i - idt_m1 fvco freq_in i * freq_in) *
    1000000 / (i * freq_in / 1000) < 4294967296)]
  rw [if_pos ht]
  rfl

/-- Witness for the amended C5 at `vco = 3999900000`, `reference = 128000`,
`p = 1`: all side conditions hold and the error value is 218750000. -/
theorem claim_C5_amended_witness :
    idt_error_abs 3999900000 128000 1 =
      (3999900000 * 1 - idt_m1 3999900000 128000 1 * 128000) * 1000000 /
        (1 * 128000 / 1000) :=
  claim_C5_amended 3999900000 128000 1 (by decide) (by decide) (by decide)
    (by decide) (by decide)

/-- Helper: the input-frequency guard of `set_clock` never rejects (its two
comparisons cannot hold at once). -/
theorem set_clock_fin_reject_eq_false (freq_in : Nat) :
    set_clock_fin_reject freq_in = false := by
  simp only [set_clock_fin_reject, FIN_MIN, FIN_MAX, Bool.and_eq_false_iff,
    decide_eq_false_iff_not, not_lt]
  omega

/-- Helper: the output-frequency guard of `set_clock` never rejects. -/
theorem set_clock_fout_reject_eq_false (freq_out : Nat) :
    set_clock_fout_reject freq_out = false := by
  simp only [set_clock_fout_reject, FOUT_MIN, FOUT_MAX, Bool.and_eq_false_iff,
    decide_eq_false_iff_not, not_lt]
  omega

/-- C8: in every write sequence produced by a `set_clock` call, the first
write is the calibration disable `(0x0070, 0x05)`, the last write is the
calibration enable `(0x0070, 0x00)`, and every write strictly between the
two goes to a non-calibration address (the field-programming writes). -/
theorem claim_C8 (wf : Nat → Nat → Int) (rf : Nat → Nat)
    (freq_in freq_out : Nat) :
    (set_clock wf rf freq_in freq_out).1.head? = some (0x0070, 0x05) ∧
      (set_clock wf rf freq_in freq_out).1.getLast? = some (0x0070, 0x00) ∧
      (((set_clock wf rf freq_in freq_out).1.drop 1).dropLast.all
        fun w => w.1 != 0x0070) = true := by
  simp only [set_clock, set_clock_fin_reject_eq_false,
    set_clock_fout_reject_eq_false, Bool.false_eq_true, if_false]
  generalize (idt_cal_settings freq_in freq_out).getD undef_settings = s
  simp only [set_clock_prog, idt_write_reg_w, idt_ref_input_w, idt_modify_reg_w,
    idt_set_mode_w, idt_pre_div_w, idt_m1_feedback_w, idt_dsm_int_w,
    idt_dsm_frac_w, idt_outdiv_int_w, idt_outdiv_frac_w, idt_in_monitor_w,
    List.cons_append, List.nil_append]
  refine ⟨rfl, ?_, ?_⟩ <;> rfl

/-- C9: a failed register write does not stop the sequence — the write list
`set_clock` issues is the same whatever the per-write status oracle says —
and the returned status is exactly the status of the last write issued, the
final calibration-enable write at `0x0070`. -/
theorem claim_C9 (wf wf2 : Nat → Nat → Int) (rf : Nat → Nat)
    (freq_in freq_out : Nat) :
    (set_clock wf rf freq_in freq_out).2 = wf 0x0070 0x00 ∧
      (set_clock wf rf freq_in freq_out).1 =
        (set_clock wf2 rf freq_in freq_out).1 := by
  simp only [set_clock, set_clock_fin_reject_eq_false,
    set_clock_fout_reject_eq_false, Bool.false_eq_true, if_false]
  generalize (idt_cal_settings freq_in freq_out).getD undef_settings = s
  simp only [set_clock_prog, idt_write_reg_w, idt_ref_input_w, idt_modify_reg_w,
    idt_set_mode_w, idt_pre_div_w, idt_m1_feedback_w, idt_dsm_int_w,
    idt_dsm_frac_w, idt_outdiv_int_w, idt_outdiv_frac_w, idt_in_monitor_w,
    List.cons_append, List.nil_append]
  refine ⟨?_, ?_⟩ <;> first | rfl | trivial

/-- Helper: every divider emitted by the enumeration with bypass disabled is
a bare NS1 value (4, 5, 6) or `ns1 * ns2 * 2` with `ns1 ∈ {4,5,6}`, hence
divisible by 8, 10 or 12. -/
theorem idt_divtable_sel (freq_out r : Nat)
    (h : r ∈ idt_get_int_divtable false freq_out) :
    r = 4 ∨ r = 5 ∨ r = 6 ∨ r % 8 = 0 ∨ r % 10 = 0 ∨ r % 12 = 0 := by
  simp only [idt_get_int_divtable, ns1_opts, List.drop_succ_cons,
    List.drop_zero, Bool.false_eq_true, if_false, List.mem_flatMap,
    List.mem_filterMap] at h
  obtain ⟨n2, _, a, ha, hfa⟩ := h
  by_cases hz : (n2 == 0) = true
  · rw [if_pos hz] at hfa
    split at hfa
    · simp only [Option.some.injEq] at hfa
      subst hfa
      fin_cases ha <;> simp
    · exact Option.noConfusion hfa
  · rw [if_neg hz] at hfa
    split at hfa
    · simp only [Option.some.injEq] at hfa
      subst hfa
      fin_cases ha <;> omega
    · exact Option.noConfusion hfa

/-- Helper: the fold computing `max_div` preserves the NS1-selectable shape,
starting from its 0 seed (0 is divisible by 8). -/
theorem idt_foldl_max_sel (l : List Nat)
    (hl : ∀ r ∈ l, r = 4 ∨ r = 5 ∨ r = 6 ∨ r % 8 = 0 ∨ r % 10 = 0 ∨ r % 12 = 0) :
    ∀ acc, (acc = 4 ∨ acc = 5 ∨ acc = 6 ∨ acc % 8 = 0 ∨ acc % 10 = 0 ∨
        acc % 12 = 0) →
      (l.foldl max acc = 4 ∨ l.foldl max acc = 5 ∨ l.foldl max acc = 6 ∨
        l.foldl max acc % 8 = 0 ∨ l.foldl max acc % 10 = 0 ∨
        l.foldl max acc % 12 = 0) := by
  induction l with
  | nil => intro acc hacc; simpa using hacc
  | cons x xs ih =>
    intro acc hacc
    simp only [List.foldl_cons]
    refine ih (fun r hr => hl r (List.mem_cons_of_mem _ hr)) _ ?_
    rcases max_choice acc x with hmx | hmx <;> rw [hmx]
    · exact hacc
    · exact hl x (List.mem_cons_self x xs)

/-- Helper: the NS1 selection chain fires on every NS1-selectable divider. -/
theorem idt_ns1_sel_isSome (d : Nat)
    (hd : d = 4 ∨ d = 5 ∨ d = 6 ∨ d % 8 = 0 ∨ d % 10 = 0 ∨ d % 12 = 0) :
    (idt_ns1_sel d).isSome = true := by
  by_cases h12 : (d == 6 || d % 12 == 0) = true
  · simp [idt_ns1_sel, h12]
  · by_cases h10 : (d == 5 || d % 10 == 0) = true
    · simp [idt_ns1_sel, h12, h10]
    · by_cases h8 : (d == 4 || d % 8 == 0) = true
      · simp [idt_ns1_sel, h12, h10, h8]
      · exfalso
        simp only [Bool.or_eq_true, beq_iff_eq, not_or] at h12 h10 h8
        rcases hd with h | h | h | h | h | h <;> omega

/-- C10: every total divider emitted with bypass disabled is one of 4, 5, 6
(the NS2-bypass case) or divisible by 8, 10 or 12; consequently the
sequential NS1 selection chain always assigns a register value for the
selected maximum divider and never leaves `ns1` undetermined. -/
theorem claim_C10 (freq_out : Nat) :
    (∀ r ∈ idt_get_int_divtable false freq_out,
      r = 4 ∨ r = 5 ∨ r = 6 ∨ r % 8 = 0 ∨ r % 10 = 0 ∨ r % 12 = 0) ∧
      (idt_ns1_sel (idt_max_div freq_out)).isSome = true := by
  refine ⟨fun r hr => idt_divtable_sel freq_out r hr, ?_⟩
  refine idt_ns1_sel_isSome _ ?_
  exact idt_foldl_max_sel _ (fun r hr => idt_divtable_sel freq_out r hr) 0
    (by omega)

/-- Witness for C10 at `freq_out = 175 MHz`: the table is `[20]` and the
chain fires on the selected maximum divider 20. -/
theorem claim_C10_witness :
    ((20 : Nat) = 4 ∨ (20 : Nat) = 5 ∨ (20 : Nat) = 6 ∨ (20 : Nat) % 8 = 0 ∨
      (20 : Nat) % 10 = 0 ∨ (20 : Nat) % 12 = 0) ∧
      (idt_ns1_sel (idt_max_div 175000000)).isSome = true :=
  ⟨(claim_C10 175000000).1 20 (by decide), (claim_C10 175000000).2⟩

/-- Supporting fact for the exhaustion claim about the feedback scan: at the
very first examined divider `p_min = freq_in / FPD_MAX` the computed
multiplier is already below `M_MAX` for every `u32` VCO value and every
reference frequency, so a scan that never produces an `m < M_MAX` cannot
occur; the code accordingly has no exhaustion-failure path (it would read
the uninitialised `m1_default`/`p_default` instead). -/
theorem idt_first_m1_lt (fvco freq_in : Nat) (h : fvco < U32) :
    idt_m1 fvco freq_in (idt_p_min freq_in) < M_MAX := by
  rcases Nat.eq_zero_or_pos freq_in with h0 | h0
  · subst h0
    simp [idt_m1, M_MAX]
  · rw [idt_m1, Nat.div_lt_iff_lt_mul h0]
    have hk : freq_in / FPD_MAX * 128000 ≤ freq_in := by
      simpa [FPD_MAX] using Nat.div_mul_le_self freq_in 128000
    have h1 : fvco * (freq_in / FPD_MAX) ≤ 4294967295 * (freq_in / FPD_MAX) :=
      Nat.mul_le_mul_right _ (by simp only [U32] at h; omega)
    have h2 : 16777216 * (freq_in / FPD_MAX * 128000) ≤ 16777216 * freq_in :=
      Nat.mul_le_mul_left _ hk
    simp only [idt_p_min, M_MAX, FPD_MAX] at h1 h2 ⊢
    generalize freq_in / 128000 = k at *
    omega

end Idt
